import Mathlib

/-!
Shallow embedding of the SureSafe demo integration (reverse proxy, Box AI
extraction gateway, Box webhook receiver, and portal backend routes) together
with theorems settling the spec claims about it.

Conventions used throughout the embedding:
* JavaScript values that may be `undefined`/`null` are modelled as `Option`.
* External effects (the Box AI vendor call, the HMAC digest from the crypto
  library, per-file Box upload outcomes, the n8n forward fetch, the Camunda
  REST call) are modelled as explicit function or outcome parameters of the
  route handlers, so each handler is a pure function of the request and of the
  outcomes of the external calls it performs.
* A thrown-and-caught exception that a route converts to a 500 response is
  modelled as the corresponding error constructor of the route's response type.
-/

namespace SureSafe

/-! ## Reverse proxy: Box trigger dispatch (proxy service)

`TRIGGER_ROUTES` and the `POST /webhook/box-file-upload` dispatcher middleware.
The middleware rewrites `req.url` only when the body has a `trigger` field, the
trigger is a key of the table, and the mapped path differs from
`box-file-upload`; the inbound URL is always `/webhook/box-file-upload`. -/

def TRIGGER_ROUTES : List (String × String) := [
  ("FILE.UPLOADED", "box-file-upload"),
  ("METADATA_INSTANCE.CREATED", "box-metadata"),
  ("METADATA_INSTANCE.UPDATED", "box-metadata"),
  ("METADATA_INSTANCE.DELETED", "box-metadata"),
  ("TASK_ASSIGNMENT.CREATED", "box-tasks"),
  ("TASK_ASSIGNMENT.UPDATED", "box-tasks"),
  ("SIGN_REQUEST.COMPLETED", "box-sign"),
  ("SIGN_REQUEST.DECLINED", "box-sign"),
  ("SIGN_REQUEST.EXPIRED", "box-sign"),
  ("COLLABORATION.CREATED", "box-collab"),
  ("COLLABORATION.REMOVED", "box-collab")]

/-- Own property names of `Object.prototype` (Node/V8). `TRIGGER_ROUTES` and
`adminUsers` are plain object literals, so a property read whose key misses
every own property continues into `Object.prototype` and reaches these; each
holds a truthy non-string value (a built-in function, or the prototype object
itself for the `__proto__` accessor). -/
def objectPrototypeKeys : List String :=
  ["constructor", "hasOwnProperty", "isPrototypeOf", "propertyIsEnumerable",
   "toLocaleString", "toString", "valueOf", "__proto__", "__defineGetter__",
   "__defineSetter__", "__lookupGetter__", "__lookupSetter__"]

/-- Value classes a JavaScript property read on a string-valued object
literal can produce: an own string property, a truthy non-string value
inherited from `Object.prototype`, or `undefined`. -/
inductive JsProp where
  | str (s : String)
  | inherited (name : String)
  | undef
deriving DecidableEq

/-- JavaScript read `table[key]` on a string-valued object literal: own
properties shadow the prototype; a miss continues into `Object.prototype`. -/
def jsGet (table : List (String × String)) (key : String) : JsProp :=
  match table.lookup key with
  | some v => JsProp.str v
  | none =>
    if key ∈ objectPrototypeKeys then JsProp.inherited key else JsProp.undef

/-- URL left on the request after the dispatcher middleware runs, for a body
whose `trigger` field is `trigger` (`none` models an absent field).
`inheritedStr` is the engine's stringification of a truthy non-string value
inherited from `Object.prototype`, as interpolated into the rewritten path;
such a value is never the string `box-file-upload`, so the guard
`TRIGGER_ROUTES[trigger] !== 'box-file-upload'` passes for it and the URL is
rewritten. -/
def boxFileUploadDispatch (inheritedStr : String → String)
    (trigger : Option String) : String :=
  match trigger with
  | some t =>
    match jsGet TRIGGER_ROUTES t with
    | JsProp.str route =>
      if route ≠ "box-file-upload" then "/webhook/" ++ route
      else "/webhook/box-file-upload"
    | JsProp.inherited name => "/webhook/" ++ inheritedStr name
    | JsProp.undef => "/webhook/box-file-upload"
  | none => "/webhook/box-file-upload"

/-- Concrete stringification of the inherited `Object.prototype` values, used
to instantiate `inheritedStr` in closed statements: V8 prints its built-in
functions this way, and the `__proto__` accessor yields the prototype object,
which prints as `[object Object]`. -/
def inheritedStrModel : String → String := fun name =>
  if name = "__proto__" then "[object Object]"
  else "function " ++ name ++ "() \x7b [native code] \x7d"

/-! ## Extraction gateway (`POST /extract`) -/

structure ExtractField where
  key : String
  type : String
  description : String
deriving DecidableEq

/-- One entry of `EXTRACTION_CONFIGS`. The `prompt` string of each config is
not consulted by the `/extract` handler (only `fields` is), so it is not
carried in the embedding. -/
structure ExtractionConfig where
  name : String
  fields : List ExtractField
deriving DecidableEq

def fnolConfig : ExtractionConfig := {
  name := "FNOL_Extraction",
  fields := [
    ⟨"claimantName", "string", "Full name of the claimant"⟩,
    ⟨"dateOfLoss", "date", "Date when the incident occurred"⟩,
    ⟨"timeOfLoss", "string", "Time when the incident occurred"⟩,
    ⟨"incidentLocation", "string", "Full address where incident occurred"⟩,
    ⟨"incidentDescription", "string", "Detailed description of what happened"⟩,
    ⟨"lossType", "string", "Type of loss (auto collision, property damage, etc.)"⟩,
    ⟨"policyNumber", "string", "Insurance policy number"⟩,
    ⟨"contactPhone", "string", "Claimant phone number"⟩,
    ⟨"contactEmail", "string", "Claimant email address"⟩,
    ⟨"injuriesReported", "string", "Were injuries reported (yes/no)"⟩,
    ⟨"injuryDescription", "string", "Description of injuries if any"⟩,
    ⟨"policeReportFiled", "string", "Was police report filed (yes/no)"⟩,
    ⟨"policeReportNumber", "string", "Police report number if filed"⟩,
    ⟨"otherParties", "string", "Names of other parties involved"⟩,
    ⟨"witnesses", "string", "Names of witnesses"⟩,
    ⟨"estimatedDamage", "string", "Estimated damage amount in dollars"⟩,
    ⟨"vehicleYear", "string", "Vehicle year"⟩,
    ⟨"vehicleMake", "string", "Vehicle make"⟩,
    ⟨"vehicleModel", "string", "Vehicle model"⟩,
    ⟨"vehicleVIN", "string", "Vehicle identification number"⟩] }

def medicalConfig : ExtractionConfig := {
  name := "Medical_Record_Extraction",
  fields := [
    ⟨"patientName", "string", "Patient full name"⟩,
    ⟨"dateOfService", "date", "Date of medical service"⟩,
    ⟨"providerName", "string", "Doctor or provider name"⟩,
    ⟨"facilityName", "string", "Hospital or clinic name"⟩,
    ⟨"providerType", "string", "Type of provider (ER, specialist, etc.)"⟩,
    ⟨"chiefComplaint", "string", "Primary reason for visit"⟩,
    ⟨"diagnoses", "string", "Medical diagnoses"⟩,
    ⟨"icd10Codes", "string", "ICD-10 diagnosis codes"⟩,
    ⟨"treatmentProvided", "string", "Treatment provided"⟩,
    ⟨"procedures", "string", "Procedures performed"⟩,
    ⟨"cptCodes", "string", "CPT procedure codes"⟩,
    ⟨"medications", "string", "Medications prescribed"⟩,
    ⟨"followUpInstructions", "string", "Follow-up care instructions"⟩,
    ⟨"workRestrictions", "string", "Work restrictions if any"⟩,
    ⟨"prognosis", "string", "Expected recovery prognosis"⟩,
    ⟨"totalCharges", "string", "Total charges in dollars"⟩,
    ⟨"accidentRelated", "string", "Is treatment accident related (yes/no)"⟩] }

def estimateConfig : ExtractionConfig := {
  name := "Repair_Estimate_Extraction",
  fields := [
    ⟨"estimateProvider", "string", "Name of repair shop"⟩,
    ⟨"estimateDate", "date", "Date estimate was created"⟩,
    ⟨"estimateNumber", "string", "Estimate reference number"⟩,
    ⟨"vehicleInfo", "string", "Vehicle year/make/model"⟩,
    ⟨"lineItems", "string", "Description of repair items"⟩,
    ⟨"partsTotal", "string", "Total cost of parts"⟩,
    ⟨"laborTotal", "string", "Total labor cost"⟩,
    ⟨"laborHours", "string", "Total labor hours"⟩,
    ⟨"laborRate", "string", "Labor rate per hour"⟩,
    ⟨"materialsTotal", "string", "Materials and supplies total"⟩,
    ⟨"subletTotal", "string", "Sublet work total"⟩,
    ⟨"tax", "string", "Tax amount"⟩,
    ⟨"grandTotal", "string", "Grand total amount"⟩,
    ⟨"repairVsReplace", "string", "Repair or replace decision"⟩,
    ⟨"isSupplemental", "string", "Is this a supplemental estimate (yes/no)"⟩] }

def policeConfig : ExtractionConfig := {
  name := "Police_Report_Extraction",
  fields := [
    ⟨"reportNumber", "string", "Police report number"⟩,
    ⟨"reportDate", "date", "Date report was filed"⟩,
    ⟨"incidentDateTime", "string", "Date and time of incident"⟩,
    ⟨"incidentLocation", "string", "Full address of incident"⟩,
    ⟨"officerName", "string", "Reporting officer name"⟩,
    ⟨"badgeNumber", "string", "Officer badge number"⟩,
    ⟨"agencyName", "string", "Police department name"⟩,
    ⟨"involvedParties", "string", "Names of all involved parties"⟩,
    ⟨"vehicles", "string", "Vehicle information"⟩,
    ⟨"narrative", "string", "Description of what happened"⟩,
    ⟨"citations", "string", "Citations issued"⟩,
    ⟨"faultDetermination", "string", "Fault determination if stated"⟩,
    ⟨"injuries", "string", "Injuries reported"⟩,
    ⟨"witnesses", "string", "Witness names"⟩,
    ⟨"damageDescription", "string", "Description of damages"⟩,
    ⟨"weatherConditions", "string", "Weather conditions"⟩,
    ⟨"roadConditions", "string", "Road conditions"⟩,
    ⟨"diagramIncluded", "string", "Diagram included (yes/no)"⟩] }

def invoiceConfig : ExtractionConfig := {
  name := "Vendor_Invoice_Extraction",
  fields := [
    ⟨"vendorName", "string", "Vendor company name"⟩,
    ⟨"vendorAddress", "string", "Vendor address"⟩,
    ⟨"invoiceNumber", "string", "Invoice number"⟩,
    ⟨"invoiceDate", "date", "Invoice date"⟩,
    ⟨"dueDate", "date", "Payment due date"⟩,
    ⟨"serviceDescription", "string", "Description of services"⟩,
    ⟨"lineItems", "string", "Line items and amounts"⟩,
    ⟨"subtotal", "string", "Subtotal amount"⟩,
    ⟨"tax", "string", "Tax amount"⟩,
    ⟨"totalAmount", "string", "Total invoice amount"⟩,
    ⟨"paymentTerms", "string", "Payment terms"⟩,
    ⟨"claimReference", "string", "Related claim number"⟩] }

def insuranceClaimConfig : ExtractionConfig := {
  name := "Insurance_Claim_Extraction",
  fields := [
    ⟨"claimantName", "string", "Full name of the claimant"⟩,
    ⟨"policyNumber", "string", "Insurance policy number"⟩,
    ⟨"claimType", "string", "Type of insurance claim"⟩,
    ⟨"dateOfIncident", "date", "Date when the incident occurred"⟩,
    ⟨"incidentLocation", "string", "Location where incident occurred"⟩,
    ⟨"incidentDescription", "string", "Detailed description of the incident"⟩,
    ⟨"estimatedAmount", "string", "Estimated claim amount in dollars"⟩,
    ⟨"contactPhone", "string", "Claimant phone number"⟩,
    ⟨"contactEmail", "string", "Claimant email address"⟩,
    ⟨"contactAddress", "string", "Claimant address"⟩,
    ⟨"injuriesReported", "string", "Description of injuries if any"⟩,
    ⟨"propertyDamage", "string", "Description of property damage"⟩,
    ⟨"thirdParties", "string", "Third parties involved"⟩,
    ⟨"witnesses", "string", "Witness names and contact info"⟩,
    ⟨"policeReportFiled", "string", "Police/fire report filed (yes/no)"⟩,
    ⟨"reportNumber", "string", "Police/fire report number"⟩,
    ⟨"supportingDocuments", "string", "List of supporting documents"⟩,
    ⟨"claimStatus", "string", "Current status of the claim"⟩] }

def EXTRACTION_CONFIGS : List (String × ExtractionConfig) := [
  ("fnol", fnolConfig),
  ("medical", medicalConfig),
  ("estimate", estimateConfig),
  ("police", policeConfig),
  ("invoice", invoiceConfig),
  ("insurance_claim", insuranceClaimConfig)]

/-- Request body of `POST /extract`; the handler accepts both camelCase and
snake_case parameter names. -/
structure ExtractReq where
  fileId : Option String
  file_id : Option String
  extractionType : Option String
  extraction_type : Option String
deriving DecidableEq

/-- One field of the `/ai/extract_structured` request body built from a config
entry: `date` fields are sent as `string`, and a per-field question prompt is
derived from the lower-cased description. -/
structure VendorFieldReq where
  key : String
  type : String
  description : String
  prompt : String
deriving DecidableEq

def vendorFields (config : ExtractionConfig) : List VendorFieldReq :=
  config.fields.map fun f => {
    key := f.key,
    type := if f.type = "date" then "string" else f.type,
    description := f.description,
    prompt := "What is the " ++ f.description.toLower ++ "?" }

/-- Successful response body of the Box AI vendor call; `answer` and
`ai_agent_info` model the same-named JSON members (opaque blobs as strings). -/
structure VendorBody where
  answer : Option String
  ai_agent_info : Option String
deriving DecidableEq

/-- Error raised by a failed vendor call: `message` is the vendor error text,
`responseBody` models `error.response?.body`. -/
structure VendorError where
  message : String
  responseBody : Option String
deriving DecidableEq

/-- Value bound to `data` in the success envelope:
`extractResponse.body.answer || extractResponse.body`. -/
inductive ExtractData where
  | fromAnswer (a : String)
  | fullBody (b : VendorBody)
deriving DecidableEq

def extractDataOf (b : VendorBody) : ExtractData :=
  match b.answer with
  | some a => ExtractData.fromAnswer a
  | none => ExtractData.fullBody b

/-- Responses of `POST /extract`: 400 validation errors, the 200 success
envelope (whose JSON carries `success: true`), and the 500 failure envelope
(whose JSON carries `success: false` and the vendor error text). -/
inductive ExtractResp where
  | badRequest (error : String) (validTypes : Option (List String))
  | success (fileId : String) (extractionType : String) (timestamp : String)
      (data : ExtractData) (aiInfo : Option String)
  | failure (error : String) (details : Option String)
deriving DecidableEq

def ExtractResp.statusCode : ExtractResp → Nat
  | ExtractResp.badRequest _ _ => 400
  | ExtractResp.success _ _ _ _ _ => 200
  | ExtractResp.failure _ _ => 500

/-- Value of the `success` JSON member of a `/extract` response, when present
(the 400 bodies have no `success` member). -/
def ExtractResp.successFlag : ExtractResp → Option Bool
  | ExtractResp.badRequest _ _ => none
  | ExtractResp.success _ _ _ _ _ => some true
  | ExtractResp.failure _ _ => some false

/-- Handler of `POST /extract`. `vendor` is the Box AI
`/ai/extract_structured` call (file id and field list to outcome); `now` is
the ISO timestamp taken when the response is built. -/
def extractHandler
    (vendor : String → List VendorFieldReq → Except VendorError VendorBody)
    (now : String) (req : ExtractReq) : ExtractResp :=
  match req.fileId <|> req.file_id with
  | none => ExtractResp.badRequest "fileId is required" none
  | some fileId =>
    match req.extractionType <|> req.extraction_type with
    | none =>
      ExtractResp.badRequest "Invalid extractionType"
        (some (EXTRACTION_CONFIGS.map Prod.fst))
    | some extractionType =>
      match EXTRACTION_CONFIGS.lookup extractionType with
      | none =>
        ExtractResp.badRequest "Invalid extractionType"
          (some (EXTRACTION_CONFIGS.map Prod.fst))
      | some config =>
        match vendor fileId (vendorFields config) with
        | Except.ok body =>
          ExtractResp.success fileId extractionType now (extractDataOf body)
            body.ai_agent_info
        | Except.error err => ExtractResp.failure err.message err.responseBody

/-! ## Box webhook receiver (`POST /webhook/box`, gateway service) -/

structure BoxSource where
  id : Option String
  type : Option String
  name : Option String
deriving DecidableEq

structure BoxWebhookBody where
  trigger : Option String
  source : Option BoxSource
deriving DecidableEq

/-- Responses of `POST /webhook/box`: 200 `{received:true}`, 401
`{error:"Invalid signature"}`, and the catch-all 500. -/
inductive WebhookResp where
  | ok (received : Bool)
  | invalidSignature
  | serverError (message : String)
deriving DecidableEq

/-- Body processing of the webhook handler after the signature guard
(lines following the guard up to `res.json({received:true})`). Accessing
`source.id` with `source` undefined, or calling `toLowerCase` on an undefined
file name, throws and is caught by the route's catch, yielding a 500;
`n8nConfigured` models `N8N_WEBHOOK_URL` being set and `fetchOk` the outcome
of the forward fetch to n8n. -/
def webhookBoxProcess (n8nConfigured fetchOk : Bool) (body : BoxWebhookBody) :
    WebhookResp :=
  if body.trigger = some "FILE.UPLOADED" then
    match body.source with
    | none => WebhookResp.serverError "Cannot read properties of undefined (reading id)"
    | some src =>
      match src.name with
      | none => WebhookResp.serverError "Cannot read properties of undefined (reading toLowerCase)"
      | some _ =>
        if n8nConfigured then
          if fetchOk then WebhookResp.ok true
          else WebhookResp.serverError "fetch failed"
        else WebhookResp.ok true
  else WebhookResp.ok true

/-- Handler of `POST /webhook/box`. `hmac` abstracts the crypto library digest
`crypto.createHmac("sha256", key).update(JSON.stringify(body)).digest("base64")`
as a function of the key and the body; the signature guard runs only when both
the primary key and the `x-box-signature` header are present. -/
def webhookBox (hmac : String → BoxWebhookBody → String)
    (primaryKey signature : Option String)
    (n8nConfigured fetchOk : Bool) (body : BoxWebhookBody) : WebhookResp :=
  match primaryKey, signature with
  | some key, some sig =>
    if sig ≠ hmac key body then WebhookResp.invalidSignature
    else webhookBoxProcess n8nConfigured fetchOk body
  | _, _ => webhookBoxProcess n8nConfigured fetchOk body

/-- Concrete digest function used to instantiate the `hmac` parameter of
`webhookBox` in closed statements (the theorems quantify over `hmac`). -/
def hmacModel : String → BoxWebhookBody → String := fun key _ => key

/-! ## Portal backend: claim data model and status-changing routes -/

/-- One entry of a claim's `statusHistory` JSON array. -/
structure StatusEntry where
  status : String
  date : String
  note : String
  updatedBy : Option String
deriving DecidableEq

/-- Persisted claim row (the columns the settled claims touch).
`statusHistory` is `Option` because the column may be null. -/
structure ClaimRec where
  id : String
  status : String
  statusHistory : Option (List StatusEntry)
  processInstanceKey : Option String
  workflowStatus : String
deriving DecidableEq

/-- Status of the head entry of a claim's `statusHistory` (with the
`claim.statusHistory || []` null guard the routes use). -/
def statusHistoryHead (c : ClaimRec) : Option String :=
  (c.statusHistory.getD []).head?.map StatusEntry.status

/-- Update performed by `PUT /api/admin/claims/:id/status` on a found claim:
unshift a new history entry, then set `status` and `statusHistory`. -/
def updateClaimStatus (now : String) (adminName : String) (claim : ClaimRec)
    (status : String) (notes : Option String) : ClaimRec :=
  let entry : StatusEntry := {
    status := status,
    date := now,
    note := notes.getD ("Status updated to " ++ status ++ " by " ++ adminName),
    updatedBy := some adminName }
  { claim with
    status := status,
    statusHistory := some (entry :: claim.statusHistory.getD []) }

/-- The decision-bearing task variables read by the demo branch of the
task-completion route; each member models `variables.<name>?.value`. -/
structure TaskVariables where
  adjusterDecision : Option String
  reviewDecision : Option String
  managerDecision : Option String
  investigationOutcome : Option String
deriving DecidableEq

def decisionOf (v : TaskVariables) : Option String :=
  v.adjusterDecision <|> (v.reviewDecision <|>
    (v.managerDecision <|> v.investigationOutcome))

/-- The string-equality decision-to-status mapping of the demo branch. -/
def demoNewStatus (decision : Option String) (current : String) : String :=
  if decision = some "approve" ∨ decision = some "approved" ∨
      decision = some "CLEARED" then "Approved"
  else if decision = some "deny" ∨ decision = some "FRAUD_CONFIRMED" then "Denied"
  else if decision = some "escalate" then "Escalated"
  else if decision = some "request_more_docs" then "Pending Documents"
  else current

/-- The decision strings the demo branch recognizes (used only to state
theorems about unrecognized decisions). -/
def recognizedDecisions : List String :=
  ["approve", "approved", "CLEARED", "deny", "FRAUD_CONFIRMED", "escalate",
   "request_more_docs"]

/-- JSON response of the demo branch of the task-completion route:
`{success:true, result:{...}, demo:true}` has no error member. -/
structure TaskCompleteResp where
  success : Bool
  demo : Bool
  error : Option String
deriving DecidableEq

/-- Demo branch of `POST /api/admin/camunda/task/:taskId/complete` (the catch
handler): when the claim row was found and the body carries `variables`, the
claim status and history are updated from the mapped decision; either way the
response reports success. Returns the updated claim row (if any) and the
response. -/
def demoCompleteTask (now : String) (adminName : Option String)
    (claim : Option ClaimRec) (vars : Option TaskVariables) :
    Option ClaimRec × TaskCompleteResp :=
  match claim, vars with
  | some c, some v =>
    let newStatus := demoNewStatus (decisionOf v) c.status
    let entry : StatusEntry := {
      status := newStatus,
      date := now,
      note := "Task completed with decision: " ++ (decisionOf v).getD "undefined",
      updatedBy := some (adminName.getD "System") }
    (some { c with
        status := newStatus,
        statusHistory := some (entry :: c.statusHistory.getD []) },
      { success := true, demo := true, error := none })
  | c, _ => (c, { success := true, demo := true, error := none })

/-! ## Portal backend: claim submission (`POST /api/claims`) -/

/-- A multipart upload received by the route (one element of `req.files`). -/
structure UploadFile where
  originalname : String
  size : Nat
  mimetype : String
deriving DecidableEq

/-- One element of `uploadedDocs`, recorded after a successful Box upload. -/
structure UploadedDoc where
  id : String
  name : String
  size : Nat
  type : String
deriving DecidableEq

/-- Upload loop of the submission route: runs only when files were sent, the
Box client is initialized and the claim folder was created; each file whose
Box upload fails (`uploadResult` returns `none`) is logged and skipped. -/
def uploadStep (boxClient : Bool) (claimFolderId : Option String)
    (uploadResult : UploadFile → Option String) (files : List UploadFile) :
    List UploadedDoc :=
  if boxClient ∧ claimFolderId.isSome ∧ files ≠ [] then
    files.filterMap fun f =>
      (uploadResult f).map fun fid =>
        { id := fid, name := f.originalname, size := f.size, type := f.mimetype }
  else []

/-- The uploaded docs the submission route invokes the extraction gateway on:
one call with `uploadedDocs[0].id` when `uploadedDocs.length > 0` and the
claim folder exists, otherwise none. -/
def extractionTargets (uploadedDocs : List UploadedDoc)
    (claimFolderId : Option String) : List UploadedDoc :=
  if 0 < uploadedDocs.length ∧ claimFolderId.isSome then uploadedDocs.take 1
  else []

/-- Docs extraction is invoked on during one `POST /api/claims` submission,
as a function of the external-call outcomes. -/
def submitClaimExtractCalls (boxClient : Bool) (claimFolderId : Option String)
    (uploadResult : UploadFile → Option String) (files : List UploadFile) :
    List UploadedDoc :=
  extractionTargets (uploadStep boxClient claimFolderId uploadResult files)
    claimFolderId

/-- Success body of `POST /v2/process-instances`; the route reads
`processResponse.key || processResponse.processInstanceKey`. -/
structure CamundaProcessResp where
  key : Option String
  processInstanceKey : Option String
deriving DecidableEq

/-- Camunda process-start step of the submission route, applied to the freshly
inserted claim row. `camundaOutcomes` lists the outcomes successive
`camundaRequest` calls would observe; the route issues exactly one call, so
only the head is ever consumed. Returns the updated claim row, the `success`
flag of the route's JSON response, and the number of Camunda calls made. The
empty-trace case is unreachable because the route always issues its one call. -/
def claimCamundaStep
    (camundaOutcomes : List (Except String CamundaProcessResp))
    (nowMs : Nat) (claim : ClaimRec) : ClaimRec × Bool × Nat :=
  match camundaOutcomes with
  | [] => (claim, false, 0)
  | outcome :: _ =>
    match outcome with
    | Except.ok resp =>
      ({ claim with
          processInstanceKey := resp.key <|> resp.processInstanceKey,
          workflowStatus := "STARTED" }, true, 1)
    | Except.error _ =>
      ({ claim with
          processInstanceKey := some ("demo-process-" ++ toString nowMs),
          workflowStatus := "DEMO" }, true, 1)

/-! ## Portal backend: admin login (`POST /api/admin/login`) -/

structure AdminUser where
  id : String
  name : String
  email : String
  password : String
deriving DecidableEq

def adminUsers : List (String × AdminUser) := [
  ("admin@suresafe.com",
    ⟨"ADM001", "Admin User", "admin@suresafe.com", "admin123"⟩),
  ("adjuster@suresafe.com",
    ⟨"ADM002", "Sarah Mitchell", "adjuster@suresafe.com", "admin123"⟩),
  ("supervisor@suresafe.com",
    ⟨"ADM003", "Michael Chen", "supervisor@suresafe.com", "admin123"⟩),
  ("investigator@suresafe.com",
    ⟨"ADM004", "David Thompson", "investigator@suresafe.com", "admin123"⟩),
  ("legal@suresafe.com",
    ⟨"ADM005", "Jennifer Roberts", "legal@suresafe.com", "admin123"⟩),
  ("executive@suresafe.com",
    ⟨"ADM006", "Robert Williams", "executive@suresafe.com", "admin123"⟩)]

/-- The record `adminUsers["admin@suresafe.com"]`, which the login route
substitutes for any email not present in the table. -/
def adminDefaultUser : AdminUser :=
  ⟨"ADM001", "Admin User", "admin@suresafe.com", "admin123"⟩

/-- Responses of `POST /api/admin/login`: the 200 session user (password
stripped; the identity members are absent when the looked-up value has no
such own enumerable properties to spread) or the 401. -/
inductive AdminLoginResp where
  | okUser (id name email : Option String) (role : String)
  | unauthorized
deriving DecidableEq

/-- Result of the JavaScript read `adminUsers[email]` on the admin-user
object literal: an own user record, a truthy non-user value inherited from
`Object.prototype`, or `undefined`. -/
inductive AdminLookup where
  | user (u : AdminUser)
  | inherited (name : String)
  | undef
deriving DecidableEq

def adminUsersGet (email : String) : AdminLookup :=
  match adminUsers.lookup email with
  | some u => AdminLookup.user u
  | none =>
    if email ∈ objectPrototypeKeys then AdminLookup.inherited email
    else AdminLookup.undef

/-- Stored password the login route compares the submitted password against:
the record's password for an own key (or for the substituted default
account), and `none` (`undefined`) for a truthy value inherited from
`Object.prototype`, which has no `password` property. -/
def adminStoredPassword (email : String) : Option String :=
  match adminUsersGet email with
  | AdminLookup.user u => some u.password
  | AdminLookup.inherited _ => none
  | AdminLookup.undef => some adminDefaultUser.password

/-- Handler of `POST /api/admin/login`:
`adminUsers[email] || adminUsers["admin@suresafe.com"]`, then authenticate
when the password is the literal `admin123` or matches the looked-up value's
`password` property. A value inherited from `Object.prototype` is truthy, so
it survives the `||` and the default account is not substituted; it has no
`password` property (`undefined` never equals the password string), and
spreading it into the session user contributes no own enumerable properties,
so the 200 user carries no id/name/email. The `undef` branch mirrors the
falsy-`adminUser` half of the guard (unreachable here because the default
key is an own property of the table). -/
def adminLogin (email password : String) (role : Option String) :
    AdminLoginResp :=
  let adminUser :=
    match adminUsersGet email with
    | AdminLookup.undef => adminUsersGet "admin@suresafe.com"
    | v => v
  match adminUser with
  | AdminLookup.user u =>
    if password = "admin123" ∨ u.password = password then
      AdminLoginResp.okUser (some u.id) (some u.name) (some u.email)
        (role.getD "adjuster")
    else AdminLoginResp.unauthorized
  | AdminLookup.inherited _ =>
    if password = "admin123" then
      AdminLoginResp.okUser none none none (role.getD "adjuster")
    else AdminLoginResp.unauthorized
  | AdminLookup.undef => AdminLoginResp.unauthorized

/-! ## Concrete inputs used by closed statements -/

/-- Concrete claim row used to instantiate the status-route theorems. -/
def claimDemoRec : ClaimRec :=
  { id := "CLM-1700000000000-AB12",
    status := "Under Review",
    statusHistory := some [],
    processInstanceKey := none,
    workflowStatus := "STARTED" }

/-- Task variables carrying an `approve` adjuster decision. -/
def varsDemoApprove : TaskVariables :=
  { adjusterDecision := some "approve", reviewDecision := none,
    managerDecision := none, investigationOutcome := none }

/-- Task variables carrying a decision string the demo branch does not map. -/
def varsDemoUnrecognized : TaskVariables :=
  { adjusterDecision := some "reassign", reviewDecision := none,
    managerDecision := none, investigationOutcome := none }

/-- Vendor call that answers successfully. -/
def vendorOkDemo : String → List VendorFieldReq → Except VendorError VendorBody :=
  fun _ _ => Except.ok { answer := some "extracted", ai_agent_info := none }

/-- Vendor call that fails with an error message. -/
def vendorFailDemo : String → List VendorFieldReq → Except VendorError VendorBody :=
  fun _ _ => Except.error { message := "Box AI unavailable", responseBody := none }

/-- Concrete `/extract` request body `{"fileId":"123","extractionType":"fnol"}`. -/
def extractReqDemo : ExtractReq :=
  { fileId := some "123", file_id := none,
    extractionType := some "fnol", extraction_type := none }

def uploadFileFnol : UploadFile :=
  { originalname := "fnol.pdf", size := 1000, mimetype := "application/pdf" }

def uploadFileEstimate : UploadFile :=
  { originalname := "estimate.pdf", size := 2000, mimetype := "application/pdf" }

/-- Upload outcomes where the first submitted file fails to upload to Box and
the second succeeds. -/
def uploadFailsFirst : UploadFile → Option String := fun f =>
  if f.originalname = "estimate.pdf" then some "9002" else none

/-- Upload outcomes where every upload succeeds. -/
def uploadAllOk : UploadFile → Option String := fun f =>
  some ("id-" ++ f.originalname)

/-! ## Theorems -/

/-- Claim C1 counterexample: the trigger `toString` is none of the eleven
known names, yet the URL is not left unchanged — the object-literal lookup
`TRIGGER_ROUTES[trigger]` reaches the `toString` function inherited from
`Object.prototype`, which is truthy and not the string `box-file-upload`, so
the dispatcher rewrites `req.url`. -/
theorem C1_counterexample :
    TRIGGER_ROUTES.lookup "toString" = none ∧
    boxFileUploadDispatch inheritedStrModel (some "toString") =
      "/webhook/function toString() \x7b [native code] \x7d" ∧
    boxFileUploadDispatch inheritedStrModel (some "toString") ≠
      "/webhook/box-file-upload" := by
  refine ⟨by decide, by decide, by decide⟩

/-- Claim C1 as amended: for every POST to `/webhook/box-file-upload` whose
body carries a `trigger` that is one of the eleven keys of `TRIGGER_ROUTES`,
the dispatcher hands the generic proxy the URL `/webhook/<documented
downstream path>` for that trigger; for a trigger that is absent, or neither
a table key nor an `Object.prototype` property name, the URL is left
unchanged; but for a trigger naming an inherited `Object.prototype` property
the lookup is truthy and differs from `box-file-upload`, so the URL is
rewritten to `/webhook/<stringified inherited value>`. -/
theorem C1_trigger_rewrite :
    ∀ (inheritedStr : String → String),
    (∀ p ∈ TRIGGER_ROUTES,
      boxFileUploadDispatch inheritedStr (some p.1) = "/webhook/" ++ p.2) ∧
    (∀ t, TRIGGER_ROUTES.lookup t = none → t ∉ objectPrototypeKeys →
      boxFileUploadDispatch inheritedStr (some t) =
        "/webhook/box-file-upload") ∧
    (∀ t, TRIGGER_ROUTES.lookup t = none → t ∈ objectPrototypeKeys →
      boxFileUploadDispatch inheritedStr (some t) =
        "/webhook/" ++ inheritedStr t) ∧
    boxFileUploadDispatch inheritedStr none = "/webhook/box-file-upload" := by
  intro inheritedStr
  refine ⟨?_, ?_, ?_, rfl⟩
  · intro p hp
    fin_cases hp <;> rfl
  · intro t h1 h2
    simp [boxFileUploadDispatch, jsGet, h1, h2]
  · intro t h1 h2
    simp [boxFileUploadDispatch, jsGet, h1, h2]

/-- Witness for the amended C1: a sign-event trigger is re-routed to the
box-sign path, an unknown non-prototype trigger passes through unchanged, and
the prototype-property trigger `valueOf` is rewritten to its stringified
inherited value. -/
theorem C1_trigger_rewrite_witness :
    boxFileUploadDispatch inheritedStrModel (some "SIGN_REQUEST.COMPLETED") =
      "/webhook/" ++ "box-sign" ∧
    boxFileUploadDispatch inheritedStrModel (some "ITEM.RENAMED") =
      "/webhook/box-file-upload" ∧
    boxFileUploadDispatch inheritedStrModel (some "valueOf") =
      "/webhook/" ++ inheritedStrModel "valueOf" :=
  ⟨(C1_trigger_rewrite inheritedStrModel).1 ("SIGN_REQUEST.COMPLETED", "box-sign")
      (by decide),
   (C1_trigger_rewrite inheritedStrModel).2.1 "ITEM.RENAMED" (by decide)
      (by decide),
   (C1_trigger_rewrite inheritedStrModel).2.2.1 "valueOf" (by decide)
      (by decide)⟩

/-- Claim C2: after the admin status-update route, or the demo-mode branch of
the task-completion route, completes successfully with an updated claim row,
the claim's `status` equals the `status` of the head entry of its
`statusHistory`. -/
theorem C2_status_matches_history_head :
    (∀ now adminName c s notes,
      statusHistoryHead (updateClaimStatus now adminName c s notes) =
        some (updateClaimStatus now adminName c s notes).status) ∧
    (∀ now adminName c v c2,
      (demoCompleteTask now adminName (some c) (some v)).1 = some c2 →
      statusHistoryHead c2 = some c2.status) := by
  constructor
  · intro now adminName c s notes
    rfl
  · intro now adminName c v c2 h
    simp only [demoCompleteTask, Option.some.injEq] at h
    subst h
    rfl

/-- Witness for C2 on a concrete claim row, for both status-changing routes. -/
theorem C2_status_matches_history_head_witness :
    statusHistoryHead (updateClaimStatus "2026-01-01" "Admin User" claimDemoRec
        "Approved" none) =
      some (updateClaimStatus "2026-01-01" "Admin User" claimDemoRec
        "Approved" none).status ∧
    statusHistoryHead ((demoCompleteTask "2026-01-01" (some "Admin User")
        (some claimDemoRec) (some varsDemoApprove)).1.getD claimDemoRec) =
      some ((demoCompleteTask "2026-01-01" (some "Admin User")
        (some claimDemoRec) (some varsDemoApprove)).1.getD claimDemoRec).status :=
  ⟨C2_status_matches_history_head.1 "2026-01-01" "Admin User" claimDemoRec
      "Approved" none,
   C2_status_matches_history_head.2 "2026-01-01" (some "Admin User")
      claimDemoRec varsDemoApprove _ rfl⟩

/-- Membership in a one-element take pins down the head of the list. -/
theorem head_eq_of_mem_take_one {α : Type} {l : List α} {d : α}
    (h : d ∈ l.take 1) : l.head? = some d := by
  cases l with
  | nil => simp at h
  | cons a t =>
    simp only [List.take_succ_cons, List.take_zero, List.mem_singleton] at h
    simp [h]

/-- The extraction targets of one submission are always a prefix of length at
most one of the successfully uploaded docs, so any target is the head. -/
theorem submitClaimExtractCalls_head (bc : Bool) (folderId : Option String)
    (up : UploadFile → Option String) (files : List UploadFile) :
    ∀ d ∈ submitClaimExtractCalls bc folderId up files,
      (uploadStep bc folderId up files).head? = some d := by
  intro d hd
  unfold submitClaimExtractCalls extractionTargets at hd
  split at hd
  · exact head_eq_of_mem_take_one hd
  · simp at hd

/-- When the first submitted file uploads successfully, it heads the uploaded
docs. -/
theorem uploadStep_head_of_first_success (bc : Bool) (folderId : Option String)
    (up : UploadFile → Option String) (f : UploadFile) (rest : List UploadFile)
    (fid : String) (hup : up f = some fid) :
    uploadStep bc folderId up (f :: rest) = [] ∨
    (uploadStep bc folderId up (f :: rest)).head? =
      some { id := fid, name := f.originalname, size := f.size,
             type := f.mimetype } := by
  unfold uploadStep
  split
  · right
    simp [List.filterMap_cons, hup]
  · left
    rfl

/-- Claim C3 counterexample: with two submitted files whose first Box upload
fails and second succeeds, the single extraction call targets the second file,
not the first file in submission order. -/
theorem C3_counterexample :
    (submitClaimExtractCalls true (some "777") uploadFailsFirst
        [uploadFileFnol, uploadFileEstimate]).map UploadedDoc.name =
      ["estimate.pdf"] ∧
    ([uploadFileFnol, uploadFileEstimate].map UploadFile.originalname).head? =
      some "fnol.pdf" ∧
    ("estimate.pdf" : String) ≠ "fnol.pdf" := by
  refine ⟨by decide, by decide, by decide⟩

/-- Claim C3 as amended: every claim submission makes at most one extraction
call; a call always targets the first successfully uploaded file (the head of
`uploadedDocs`), which is the first file in submission order exactly when that
file's upload succeeded. -/
theorem C3_extraction_first_uploaded :
    ∀ (bc : Bool) (folderId : Option String)
      (up : UploadFile → Option String) (files : List UploadFile),
    (submitClaimExtractCalls bc folderId up files).length ≤ 1 ∧
    (∀ d ∈ submitClaimExtractCalls bc folderId up files,
      (uploadStep bc folderId up files).head? = some d) ∧
    (∀ f rest fid, files = f :: rest → up f = some fid →
      ∀ d ∈ submitClaimExtractCalls bc folderId up files,
        d.name = f.originalname) := by
  intro bc folderId up files
  refine ⟨?_, submitClaimExtractCalls_head bc folderId up files, ?_⟩
  · unfold submitClaimExtractCalls extractionTargets
    split
    · rw [List.length_take]
      exact min_le_left _ _
    · simp
  · intro f rest fid hfiles hup d hd
    subst hfiles
    rcases uploadStep_head_of_first_success bc folderId up f rest fid hup with
      h0 | h0
    · unfold submitClaimExtractCalls at hd
      rw [h0] at hd
      simp [extractionTargets] at hd
    · have hh := submitClaimExtractCalls_head bc folderId up (f :: rest) d hd
      rw [h0] at hh
      injection hh with hh
      rw [← hh]

/-- Witness for the amended C3: with all uploads succeeding, the single call
targets the first submitted file. -/
theorem C3_extraction_first_uploaded_witness :
    (submitClaimExtractCalls true (some "777") uploadAllOk
        [uploadFileFnol, uploadFileEstimate]).length ≤ 1 ∧
    (∀ d ∈ submitClaimExtractCalls true (some "777") uploadAllOk
        [uploadFileFnol, uploadFileEstimate],
      d.name = uploadFileFnol.originalname) :=
  ⟨(C3_extraction_first_uploaded true (some "777") uploadAllOk
      [uploadFileFnol, uploadFileEstimate]).1,
   (C3_extraction_first_uploaded true (some "777") uploadAllOk
      [uploadFileFnol, uploadFileEstimate]).2.2 uploadFileFnol
      [uploadFileEstimate] "id-fnol.pdf" rfl (by decide)⟩

/-- Claim C4 counterexample: with the primary key unset, a body of trigger
`FILE.UPLOADED` and no `source` makes the handler throw, so the request is
answered 500, not accepted with 200 — refuting that the receiver accepts
(returns 200) whenever the primary key is unset, regardless of the signature. -/
theorem C4_counterexample :
    webhookBox hmacModel none (some "sig-anything") true true
      { trigger := some "FILE.UPLOADED", source := none } =
      WebhookResp.serverError "Cannot read properties of undefined (reading id)" ∧
    webhookBox hmacModel none (some "sig-anything") true true
      { trigger := some "FILE.UPLOADED", source := none } ≠
      WebhookResp.ok true := by
  exact ⟨rfl, by decide⟩

/-- Claim C4 as amended: the webhook receiver rejects with 401 Invalid
signature whenever the key is configured, the header is present, and the
computed HMAC differs from the header; when the primary key is unset, no
signature verification happens — the response is that of the unverified body
processing regardless of the signature, and is 200 whenever that processing
completes without throwing (for instance, any non-`FILE.UPLOADED` trigger). -/
theorem C4_webhook_signature :
    ∀ (hmac : String → BoxWebhookBody → String),
    (∀ key sig n8n fok body, hmac key body ≠ sig →
      webhookBox hmac (some key) (some sig) n8n fok body =
        WebhookResp.invalidSignature) ∧
    (∀ sig n8n fok body,
      webhookBox hmac none sig n8n fok body =
        webhookBoxProcess n8n fok body) ∧
    (∀ sig n8n fok body, body.trigger ≠ some "FILE.UPLOADED" →
      webhookBox hmac none sig n8n fok body = WebhookResp.ok true) := by
  intro hmac
  refine ⟨?_, ?_, ?_⟩
  · intro key sig n8n fok body h
    simp [webhookBox, Ne.symm h]
  · intro sig n8n fok body
    cases sig <;> rfl
  · intro sig n8n fok body h
    cases sig <;> simp [webhookBox, webhookBoxProcess, h]

/-- Witness for the amended C4: a mismatched signature is rejected with 401,
and with no key configured a metadata-trigger request is answered 200. -/
theorem C4_webhook_signature_witness :
    webhookBox hmacModel (some "k1") (some "bad-sig") true true
      { trigger := none, source := none } = WebhookResp.invalidSignature ∧
    webhookBox hmacModel none none true true
      { trigger := some "METADATA_INSTANCE.CREATED", source := none } =
      WebhookResp.ok true :=
  ⟨(C4_webhook_signature hmacModel).1 "k1" "bad-sig" true true
      { trigger := none, source := none } (by decide),
   (C4_webhook_signature hmacModel).2.2 none true true
      { trigger := some "METADATA_INSTANCE.CREATED", source := none }
      (by decide)⟩

/-- Claim C10 counterexample: with the primary key configured and no
`x-box-signature` header, a `FILE.UPLOADED` body whose n8n forward fetch fails
is answered 500, not 200 with received:true — refuting the parenthetical that
such requests always return 200. -/
theorem C10_counterexample :
    webhookBox hmacModel (some "primary-key") none true false
      { trigger := some "FILE.UPLOADED",
        source := some { id := some "f1", type := some "file",
                         name := some "claim.pdf" } } =
      WebhookResp.serverError "fetch failed" ∧
    webhookBox hmacModel (some "primary-key") none true false
      { trigger := some "FILE.UPLOADED",
        source := some { id := some "f1", type := some "file",
                         name := some "claim.pdf" } } ≠
      WebhookResp.ok true := by
  exact ⟨rfl, by decide⟩

/-- Claim C10 as amended: when the primary key is configured but the request
carries no `x-box-signature` header, the handler performs no signature
verification at all — the response equals that of the unverified body
processing — and the request is answered 200 with received:true whenever that
processing completes without throwing (for instance, any non-`FILE.UPLOADED`
trigger); verification runs only when both key and header are present. -/
theorem C10_no_header_no_verification :
    ∀ (hmac : String → BoxWebhookBody → String) (key : String)
      (n8n fok : Bool) (body : BoxWebhookBody),
    webhookBox hmac (some key) none n8n fok body =
      webhookBoxProcess n8n fok body ∧
    (body.trigger ≠ some "FILE.UPLOADED" →
      webhookBox hmac (some key) none n8n fok body = WebhookResp.ok true) := by
  intro hmac key n8n fok body
  constructor
  · rfl
  · intro h
    simp [webhookBox, webhookBoxProcess, h]

/-- Witness for the amended C10: key configured, header absent, a
collaboration-trigger request is processed and answered 200. -/
theorem C10_no_header_no_verification_witness :
    webhookBox hmacModel (some "primary-key") none true true
      { trigger := some "COLLABORATION.CREATED", source := none } =
      WebhookResp.ok true :=
  (C10_no_header_no_verification hmacModel "primary-key" true true
    { trigger := some "COLLABORATION.CREATED", source := none }).2 (by decide)

/-- Claim C5: for every `/extract` request resolving to a file id and a
document-type key of the configuration table, a successful vendor call yields
the 200 envelope `success:true`, `fileId`, `timestamp`, and `data` holding the
vendor answer; a failed vendor call yields a 500 whose `error` is the vendor
error text. -/
theorem C5_extract_contract :
    ∀ (vendor : String → List VendorFieldReq → Except VendorError VendorBody)
      (now : String) (req : ExtractReq) (fid et : String)
      (cfg : ExtractionConfig),
    (req.fileId <|> req.file_id) = some fid →
    (req.extractionType <|> req.extraction_type) = some et →
    EXTRACTION_CONFIGS.lookup et = some cfg →
    (∀ b, vendor fid (vendorFields cfg) = Except.ok b →
      extractHandler vendor now req =
        ExtractResp.success fid et now (extractDataOf b) b.ai_agent_info ∧
      (extractHandler vendor now req).successFlag = some true ∧
      (extractHandler vendor now req).statusCode = 200) ∧
    (∀ e, vendor fid (vendorFields cfg) = Except.error e →
      extractHandler vendor now req =
        ExtractResp.failure e.message e.responseBody ∧
      (extractHandler vendor now req).statusCode = 500 ∧
      (extractHandler vendor now req).successFlag = some false) := by
  intro vendor now req fid et cfg h1 h2 h3
  constructor
  · intro b hb
    simp [extractHandler, h1, h2, h3, hb, ExtractResp.successFlag,
      ExtractResp.statusCode]
  · intro e he
    simp [extractHandler, h1, h2, h3, he, ExtractResp.successFlag,
      ExtractResp.statusCode]

/-- Witness for C5: the request `{"fileId":"123","extractionType":"fnol"}`
under a succeeding and under a failing vendor call. -/
theorem C5_extract_contract_witness :
    extractHandler vendorOkDemo "2026-01-01T00:00:00Z" extractReqDemo =
      ExtractResp.success "123" "fnol" "2026-01-01T00:00:00Z"
        (extractDataOf { answer := some "extracted", ai_agent_info := none })
        none ∧
    extractHandler vendorFailDemo "2026-01-01T00:00:00Z" extractReqDemo =
      ExtractResp.failure "Box AI unavailable" none :=
  ⟨((C5_extract_contract vendorOkDemo "2026-01-01T00:00:00Z" extractReqDemo
      "123" "fnol" fnolConfig rfl rfl (by decide)).1
      { answer := some "extracted", ai_agent_info := none } rfl).1,
   ((C5_extract_contract vendorFailDemo "2026-01-01T00:00:00Z" extractReqDemo
      "123" "fnol" fnolConfig rfl rfl (by decide)).2
      { message := "Box AI unavailable", responseBody := none } rfl).1⟩

/-- Claim C6: the `fnol` entry of the extraction configuration table has
exactly the 20 documented FNOL field keys, and the field list sent to the
vendor asks for exactly those keys. -/
theorem C6_fnol_twenty_fields :
    EXTRACTION_CONFIGS.lookup "fnol" = some fnolConfig ∧
    fnolConfig.fields.length = 20 ∧
    fnolConfig.fields.map ExtractField.key =
      ["claimantName", "dateOfLoss", "timeOfLoss", "incidentLocation",
       "incidentDescription", "lossType", "policyNumber", "contactPhone",
       "contactEmail", "injuriesReported", "injuryDescription",
       "policeReportFiled", "policeReportNumber", "otherParties", "witnesses",
       "estimatedDamage", "vehicleYear", "vehicleMake", "vehicleModel",
       "vehicleVIN"] ∧
    (vendorFields fnolConfig).map VendorFieldReq.key =
      fnolConfig.fields.map ExtractField.key := by
  refine ⟨by decide, rfl, rfl, rfl⟩

/-- Claim C7: when the Camunda process-start call of a submission fails, the
claim row gets the placeholder key `demo-process-<timestamp>` and workflow
status DEMO, exactly one Camunda call is made (no retry: later outcomes are
never consulted), and the response still reports success. -/
theorem C7_camunda_demo_fallback :
    ∀ (e : String) (rest : List (Except String CamundaProcessResp))
      (nowMs : Nat) (claim : ClaimRec),
    (claimCamundaStep (Except.error e :: rest) nowMs claim).1.processInstanceKey =
      some ("demo-process-" ++ toString nowMs) ∧
    (claimCamundaStep (Except.error e :: rest) nowMs claim).1.workflowStatus =
      "DEMO" ∧
    (claimCamundaStep (Except.error e :: rest) nowMs claim).2.1 = true ∧
    (claimCamundaStep (Except.error e :: rest) nowMs claim).2.2 = 1 ∧
    (∀ rest2, claimCamundaStep (Except.error e :: rest) nowMs claim =
      claimCamundaStep (Except.error e :: rest2) nowMs claim) := by
  intro e rest nowMs claim
  exact ⟨rfl, rfl, rfl, rfl, fun rest2 => rfl⟩

/-- A decision string outside the recognized set leaves the mapped status at
the current status. -/
theorem demoNewStatus_unrecognized (dec : Option String) (cur : String)
    (h : ∀ s ∈ recognizedDecisions, dec ≠ some s) :
    demoNewStatus dec cur = cur := by
  simp only [recognizedDecisions, List.mem_cons, List.not_mem_nil, or_false,
    forall_eq_or_imp, forall_eq] at h
  obtain ⟨h1, h2, h3, h4, h5, h6, h7⟩ := h
  simp [demoNewStatus, h1, h2, h3, h4, h5, h6, h7]

/-- Claim C8: the demo branch of the task-completion route maps the free-text
decision to a status by string equality (approve/approved/CLEARED to Approved,
deny/FRAUD_CONFIRMED to Denied, escalate to Escalated, request_more_docs to
Pending Documents); any unrecognized decision leaves the claim status
unchanged while the response still reports success with no error. -/
theorem C8_demo_decision_mapping :
    (∀ cur, demoNewStatus (some "approve") cur = "Approved") ∧
    (∀ cur, demoNewStatus (some "approved") cur = "Approved") ∧
    (∀ cur, demoNewStatus (some "CLEARED") cur = "Approved") ∧
    (∀ cur, demoNewStatus (some "deny") cur = "Denied") ∧
    (∀ cur, demoNewStatus (some "FRAUD_CONFIRMED") cur = "Denied") ∧
    (∀ cur, demoNewStatus (some "escalate") cur = "Escalated") ∧
    (∀ cur, demoNewStatus (some "request_more_docs") cur = "Pending Documents") ∧
    (∀ dec cur, (∀ s ∈ recognizedDecisions, dec ≠ some s) →
      demoNewStatus dec cur = cur) ∧
    (∀ now adminName c v, (∀ s ∈ recognizedDecisions, decisionOf v ≠ some s) →
      ((demoCompleteTask now adminName (some c) (some v)).1).map
        ClaimRec.status = some c.status ∧
      (demoCompleteTask now adminName (some c) (some v)).2 =
        { success := true, demo := true, error := none }) := by
  refine ⟨fun cur => rfl, fun cur => rfl, fun cur => rfl, fun cur => rfl,
    fun cur => rfl, fun cur => rfl, fun cur => rfl,
    fun dec cur h => demoNewStatus_unrecognized dec cur h, ?_⟩
  intro now adminName c v h
  refine ⟨?_, rfl⟩
  simp [demoCompleteTask, demoNewStatus_unrecognized (decisionOf v) c.status h]

/-- Witness for C8: an approve decision maps to Approved and the unrecognized
decision reassign leaves a concrete claim's status unchanged with a success
response. -/
theorem C8_demo_decision_mapping_witness :
    demoNewStatus (some "approve") "Under Review" = "Approved" ∧
    demoNewStatus (some "reassign") "Under Review" = "Under Review" ∧
    ((demoCompleteTask "2026-01-01" (some "Admin User") (some claimDemoRec)
        (some varsDemoUnrecognized)).1).map ClaimRec.status =
      some claimDemoRec.status ∧
    (demoCompleteTask "2026-01-01" (some "Admin User") (some claimDemoRec)
        (some varsDemoUnrecognized)).2 =
      { success := true, demo := true, error := none } :=
  ⟨C8_demo_decision_mapping.1 "Under Review",
   C8_demo_decision_mapping.2.2.2.2.2.2.2.1 (some "reassign") "Under Review"
     (by decide),
   (C8_demo_decision_mapping.2.2.2.2.2.2.2.2 "2026-01-01" (some "Admin User")
     claimDemoRec varsDemoUnrecognized (by decide)).1,
   (C8_demo_decision_mapping.2.2.2.2.2.2.2.2 "2026-01-01" (some "Admin User")
     claimDemoRec varsDemoUnrecognized (by decide)).2⟩

/-- Claim C9 counterexample: the email `toString` is not present in the
admin-user table, yet the default admin account is NOT substituted — the
object-literal lookup reaches the truthy `toString` function inherited from
`Object.prototype`, which survives the `||` — so the 200 user carries none of
the default admin identity members and the route behaves differently from the
default account. -/
theorem C9_counterexample :
    adminUsers.lookup "toString" = none ∧
    adminLogin "toString" "admin123" none =
      AdminLoginResp.okUser none none none "adjuster" ∧
    adminLogin "toString" "admin123" none ≠
      adminLogin "admin@suresafe.com" "admin123" none := by
  refine ⟨by decide, by decide, by decide⟩

/-- Claim C9 as amended: the admin login route authenticates every request
whose password is the literal admin123, for any email; an email that is
neither a table key nor an `Object.prototype` property name is silently
substituted by the default admin account; an email naming an inherited
`Object.prototype` property is not substituted — the truthy inherited value
is used, the 200 user carries no id/name/email, and only the literal
admin123 authenticates; 401 is returned exactly when the password is neither
admin123 nor the stored password of the looked-up (or substituted) value,
an inherited value having none. -/
theorem C9_admin_login_backdoor :
    (∀ email role, adminLogin email "admin123" role ≠
      AdminLoginResp.unauthorized) ∧
    (∀ email pw role, adminUsers.lookup email = none →
      email ∉ objectPrototypeKeys →
      adminLogin email pw role = adminLogin "admin@suresafe.com" pw role) ∧
    (∀ email pw role, adminUsers.lookup email = none →
      email ∈ objectPrototypeKeys →
      adminLogin email pw role =
        (if pw = "admin123" then
          AdminLoginResp.okUser none none none (role.getD "adjuster")
        else AdminLoginResp.unauthorized)) ∧
    (∀ email pw role,
      adminLogin email pw role = AdminLoginResp.unauthorized ↔
      (pw ≠ "admin123" ∧ adminStoredPassword email ≠ some pw)) := by
  have hdefget : adminUsersGet "admin@suresafe.com" =
      AdminLookup.user adminDefaultUser := by decide
  refine ⟨?_, ?_, ?_, ?_⟩
  · intro email role
    unfold adminLogin
    cases h : adminUsersGet email with
    | user u => simp [h]
    | inherited n => simp [h]
    | undef => simp [h, hdefget]
  · intro email pw role h1 h2
    have hget : adminUsersGet email = AdminLookup.undef := by
      simp [adminUsersGet, h1, h2]
    unfold adminLogin
    rw [hget, hdefget]
  · intro email pw role h1 h2
    have hget : adminUsersGet email = AdminLookup.inherited email := by
      simp [adminUsersGet, h1, h2]
    unfold adminLogin
    rw [hget]
  · intro email pw role
    unfold adminLogin adminStoredPassword
    cases h : adminUsersGet email with
    | user u =>
      simp only [h, Option.some.injEq, ne_eq]
      split
      · rename_i hc
        rcases hc with hc | hc
        · simp [hc]
        · constructor
          · intro hfalse
            exact absurd hfalse (by simp)
          · intro hconj
            exact absurd hc hconj.2
      · rename_i hc
        rw [not_or] at hc
        simp [hc.1, hc.2]
    | inherited n =>
      simp only [h, ne_eq]
      split
      · rename_i hc
        simp [hc]
      · rename_i hc
        simp [hc]
    | undef =>
      simp only [h, hdefget, ne_eq, Option.some.injEq]
      split
      · rename_i hc
        rcases hc with hc | hc
        · simp [hc]
        · constructor
          · intro hfalse
            exact absurd hfalse (by simp)
          · intro hconj
            exact absurd hc hconj.2
      · rename_i hc
        rw [not_or] at hc
        simp [hc.1, hc.2]

/-- Witness for the amended C9: an unknown email with password admin123 logs
in, an unknown non-prototype email behaves as the default account, the
prototype-property email valueOf with a wrong password is refused per the
inherited-value branch, and a known email with a wrong password is refused. -/
theorem C9_admin_login_backdoor_witness :
    adminLogin "nobody@example.com" "admin123" none ≠
      AdminLoginResp.unauthorized ∧
    adminLogin "nobody@example.com" "pw1" none =
      adminLogin "admin@suresafe.com" "pw1" none ∧
    adminLogin "valueOf" "pw1" none =
      (if ("pw1" : String) = "admin123" then
        AdminLoginResp.okUser none none none ((none : Option String).getD "adjuster")
      else AdminLoginResp.unauthorized) ∧
    adminLogin "adjuster@suresafe.com" "wrong-password" none =
      AdminLoginResp.unauthorized :=
  ⟨C9_admin_login_backdoor.1 "nobody@example.com" none,
   C9_admin_login_backdoor.2.1 "nobody@example.com" "pw1" none (by decide)
     (by decide),
   C9_admin_login_backdoor.2.2.1 "valueOf" "pw1" none (by decide) (by decide),
   (C9_admin_login_backdoor.2.2.2 "adjuster@suresafe.com" "wrong-password"
     none).mpr ⟨by decide, by decide⟩⟩

end SureSafe
